import Mathlib

/-!
Verification of the `MarkdownFileTracker` workbench contribution
(`src/vs/workbench/parts/markdown/browser/markdownExtension.ts`).

The tracker reacts to four event sources (file changes, configuration
changes, theme changes, editor-set changes) and reloads open markdown
preview editors.  We embed its state and handlers as pure functions;
external collaborators (path normalization, workspace resource
resolution, base-theme lookup) are passed as function parameters, and
the observable effect of a handler is a trace of `Call`s.
-/

/-- A canonical resource identifier (the `URI.toString()` value). -/
abbrev URIStr := String

/-- `FileChangeType` from `vs/platform/files/common/files`. -/
inductive FileChangeType
  | ADDED
  | UPDATED
  | DELETED
deriving DecidableEq, Repr

/-- One record of a `FileChangesEvent`: a resource and a change kind. -/
structure FileChange where
  resource : URIStr
  kind : FileChangeType
deriving DecidableEq, Repr

/-- The JavaScript value found in the `styles` field: a genuine array of
strings, or some other (non-array) value. -/
inductive StylesValue
  | array (xs : List String)
  | other
deriving DecidableEq, Repr

/-- The `markdown` section of `ILanguageConfiguration`; its `styles`
field may be absent. -/
structure MarkdownSection where
  styles : Option StylesValue
deriving DecidableEq, Repr

/-- A present configuration tree whose `markdown` section may be absent. -/
structure LanguageConfigurationV where
  markdown : Option MarkdownSection
deriving DecidableEq, Repr

/-- `ILanguageConfiguration` as received by the tracker; the whole
configuration may be absent (null/undefined). -/
abbrev ILanguageConfiguration := Option LanguageConfigurationV

/-- Convenience: a configuration carrying a genuine styles array. -/
def mkStylesConfig (xs : List String) : ILanguageConfiguration :=
  some { markdown := some { styles := some (StylesValue.array xs) } }

/-- The styles array of a configuration, when the configuration is
present, has a `markdown` section, and that section's `styles` field
holds a genuine array (`types.isArray`); `none` otherwise.  Mirrors the
guard on lines 146-148 of the source. -/
def configStylesArray : ILanguageConfiguration → Option (List String)
  | some lc =>
    match lc.markdown with
    | some markdownConfiguration =>
      match markdownConfiguration.styles with
      | some (StylesValue.array xs) => some xs
      | _ => none
    | none => none
  | none => none

/-- An input of a visible editor: a `MarkdownEditorInput` carrying its
resource, or any other input kind. -/
inductive EditorInputModel
  | markdownInput (resource : URIStr)
  | otherInput
deriving DecidableEq, Repr

/-- A visible editor handle: its input, and whether the editor itself is
an `IFrameEditor`. -/
structure VisibleEditor where
  input : EditorInputModel
  isIFrameEditor : Bool
deriving DecidableEq, Repr

/-- Observable calls a handler makes against the host services. -/
inductive Call
  /-- `modeService.configureMode(mime, \x7b theme: baseTheme \x7d)`. -/
  | configureModeCall (mime : String) (baseTheme : String)
  /-- An invocation of `reloadMarkdownEditors(clearIFrame, resource?)`. -/
  | reloadInvoke (clearIFrame : Bool) (resource : Option URIStr)
  /-- `IFrameEditor.reload(clearIFrame)` on the preview of `resource`. -/
  | iframeReload (clearIFrame : Bool) (resource : URIStr)
  /-- `contextService.toResource(path)`. -/
  | toResourceCall (path : String)
deriving DecidableEq, Repr

/-- Is this call a mode reconfiguration? -/
def isConfigureModeCall : Call → Bool
  | Call.configureModeCall _ _ => true
  | _ => false

/-- Is this call an invocation of `reloadMarkdownEditors`? -/
def isReloadInvoke : Call → Bool
  | Call.reloadInvoke _ _ => true
  | _ => false

/-- Is this call an `IFrameEditor.reload`? -/
def isIFrameReload : Call → Bool
  | Call.iframeReload _ _ => true
  | _ => false

/-- Number of `reloadMarkdownEditors` invocations in a trace. -/
def countReloadInvoke (calls : List Call) : Nat :=
  calls.countP isReloadInvoke

/-- Number of mode reconfigurations in a trace. -/
def countConfigureModeCalls (calls : List Call) : Nat :=
  calls.countP isConfigureModeCall

/-- Number of per-editor `IFrameEditor.reload` actions in a trace. -/
def countIFrameReloads (calls : List Call) : Nat :=
  calls.countP isIFrameReload

namespace MarkdownFileTracker

/-- `RELOAD_MARKDOWN_DELAY`: delay (ms) before reloading the markdown
preview after user typing. -/
def RELOAD_MARKDOWN_DELAY : Nat := 300

/-- The configuration-derived part of the tracker state:
`markdownConfigurationThumbprint` (a string, or `none` for JavaScript
`undefined`) and `markdownConfigurationPaths`. -/
structure ConfigState where
  markdownConfigurationThumbprint : Option String
  markdownConfigurationPaths : List String
deriving DecidableEq, Repr

/-- The state established by the constructor before any configuration is
read: no thumbprint, empty path list. -/
def initConfigState : ConfigState :=
  { markdownConfigurationThumbprint := none, markdownConfigurationPaths := [] }

/-- The thumbprint computed from a configuration: `styles.join('')` when
the configuration carries a genuine styles array, `undefined` (`none`)
otherwise (line 149 of the source). -/
def newThumbprintOf (cfg : ILanguageConfiguration) : Option String :=
  (configStylesArray cfg).map String.join

/-- The normalized path list computed from a configuration
(line 151 of the source); `normAbs` stands for the external
`paths.makePosixAbsolute(paths.normalize(·))`. -/
def newPathsOf (normAbs : String → String) (cfg : ILanguageConfiguration) : List String :=
  match configStylesArray cfg with
  | some xs => xs.map normAbs
  | none => []

/-- `readMarkdownConfiguration`: recompute thumbprint and path list,
store them unconditionally, and report whether the thumbprint changed
(`old !== new`, lines 138-160 of the source). -/
def readMarkdownConfiguration (normAbs : String → String) (s : ConfigState)
    (languageConfiguration : ILanguageConfiguration) : Bool × ConfigState :=
  let oldMarkdownConfigurationThumbprint := s.markdownConfigurationThumbprint
  let newMarkdownConfigurationThumbprint := newThumbprintOf languageConfiguration
  (decide (oldMarkdownConfigurationThumbprint ≠ newMarkdownConfigurationThumbprint),
   { markdownConfigurationThumbprint := newMarkdownConfigurationThumbprint,
     markdownConfigurationPaths := newPathsOf normAbs languageConfiguration })

/-- Does the scoping resource of a reload match an editor input's
resource?  `!resource || resource.toString() === input.getResource().toString()`. -/
def matchesResource : Option URIStr → URIStr → Bool
  | none, _ => true
  | some r, res => r == res

/-- `reloadMarkdownEditors(clearIFrame, resource?)`: walk the visible
editors; for each markdown input shown in an iframe editor and matching
the optional scoping resource, call `IFrameEditor.reload(clearIFrame)`;
return whether at least one editor was reloaded, together with the
emitted per-editor reload calls (lines 170-187 of the source). -/
def reloadMarkdownEditors (clearIFrame : Bool) (resource : Option URIStr) :
    List VisibleEditor → Bool × List Call
  | [] => (false, [])
  | editor :: rest =>
    let tail := reloadMarkdownEditors clearIFrame resource rest
    match editor.input with
    | EditorInputModel.markdownInput res =>
      if editor.isIFrameEditor && matchesResource resource res then
        (true, Call.iframeReload clearIFrame res :: tail.2)
      else tail
    | EditorInputModel.otherInput => tail

/-- `onConfigFileChange`: re-read the configuration; when the thumbprint
changed, reload all open markdown previews clearing their surfaces
(lines 130-136 of the source). -/
def onConfigFileChange (normAbs : String → String) (editors : List VisibleEditor)
    (s : ConfigState) (e : ILanguageConfiguration) : ConfigState × List Call :=
  let r := readMarkdownConfiguration normAbs s e
  if r.1 then
    (r.2, Call.reloadInvoke true none :: (reloadMarkdownEditors true none editors).2)
  else
    (r.2, [])

end MarkdownFileTracker

/-- Modelled from the spec: `FileChangesEvent.containsAny(resources, kind)`
(defined in `vs/platform/files/common/files`, which is not under `src/`) —
"test whether the event set contains an `UPDATED` change for any of
them": some resource in the list has a change record of the given kind. -/
def containsAny (changes : List FileChange) (resources : List URIStr)
    (kind : FileChangeType) : Bool :=
  resources.any fun r => changes.any fun c => c.resource == r && c.kind == kind

namespace MarkdownFileTracker

/-- `onFileChanges`: when the configured style-path list is non-empty,
resolve every configured path via `contextService.toResource` and, if
the event contains an `UPDATED` change for any of them, reload all open
markdown previews clearing their surfaces; when the list is empty, do
nothing at all (lines 162-168 of the source). -/
def onFileChanges (toResource : String → URIStr) (editors : List VisibleEditor)
    (s : ConfigState) (e : List FileChange) : List Call :=
  if s.markdownConfigurationPaths.length = 0 then []
  else
    let resolveCalls := s.markdownConfigurationPaths.map Call.toResourceCall
    if containsAny e (s.markdownConfigurationPaths.map toResource) FileChangeType.UPDATED then
      resolveCalls ++ Call.reloadInvoke true none :: (reloadMarkdownEditors true none editors).2
    else resolveCalls

/-- `configureMode(theme)`: when the theme identifier is truthy, derive
the base theme (`getBaseThemeId`, external) and reconfigure the
`text/x-web-markdown` mode with it (lines 119-124 of the source). -/
def configureMode (getBaseThemeId : String → String) (theme : String) : List Call :=
  if theme ≠ "" then
    [Call.configureModeCall "text/x-web-markdown" (getBaseThemeId theme)]
  else []

/-- The theme-change listener body (lines 77-80 of the source):
`configureMode(themeId)` followed by `reloadMarkdownEditors(true)`. -/
def onThemeChange (getBaseThemeId : String → String) (editors : List VisibleEditor)
    (themeId : String) : List Call :=
  configureMode getBaseThemeId themeId ++
    Call.reloadInvoke true none :: (reloadMarkdownEditors true none editors).2

end MarkdownFileTracker

-- Basic facts about reloadMarkdownEditors traces.

/-- Every call emitted inside `reloadMarkdownEditors` is a per-editor
`IFrameEditor.reload`. -/
theorem reloadMarkdownEditors_calls_iframe (clearIFrame : Bool) (resource : Option URIStr) :
    ∀ editors : List VisibleEditor,
      ∀ c ∈ (MarkdownFileTracker.reloadMarkdownEditors clearIFrame resource editors).2,
        isIFrameReload c = true := by
  intro editors
  induction editors with
  | nil => intro c hc; simp [MarkdownFileTracker.reloadMarkdownEditors] at hc
  | cons editor rest ih =>
    intro c hc
    simp only [MarkdownFileTracker.reloadMarkdownEditors] at hc
    rcases hinp : editor.input with res | _
    · rw [hinp] at hc
      dsimp only at hc
      by_cases hm : (editor.isIFrameEditor && MarkdownFileTracker.matchesResource resource res) = true
      · rw [if_pos hm] at hc
        rcases List.mem_cons.mp hc with h | h
        · subst h; rfl
        · exact ih c h
      · rw [if_neg hm] at hc
        exact ih c hc
    · rw [hinp] at hc
      dsimp only at hc
      exact ih c hc

/-- `reloadMarkdownEditors` makes no recursive `reloadMarkdownEditors`
invocation of its own. -/
theorem countReloadInvoke_reloadMarkdownEditors (clearIFrame : Bool) (resource : Option URIStr)
    (editors : List VisibleEditor) :
    countReloadInvoke (MarkdownFileTracker.reloadMarkdownEditors clearIFrame resource editors).2 = 0 := by
  rw [countReloadInvoke, List.countP_eq_zero]
  intro c hc
  have h := reloadMarkdownEditors_calls_iframe clearIFrame resource editors c hc
  cases c <;> simp_all [isIFrameReload, isReloadInvoke]

/-- `reloadMarkdownEditors` makes no mode reconfiguration. -/
theorem countConfigureModeCalls_reloadMarkdownEditors (clearIFrame : Bool)
    (resource : Option URIStr) (editors : List VisibleEditor) :
    countConfigureModeCalls
      (MarkdownFileTracker.reloadMarkdownEditors clearIFrame resource editors).2 = 0 := by
  rw [countConfigureModeCalls, List.countP_eq_zero]
  intro c hc
  have h := reloadMarkdownEditors_calls_iframe clearIFrame resource editors c hc
  cases c <;> simp_all [isIFrameReload, isConfigureModeCall]

/-- The fingerprint as the specification words describe it: the style
list of the configuration — an absent or invalid list treated as empty —
joined with no separator.  (Stated from the spec for comparison with
`MarkdownFileTracker.newThumbprintOf`, which is translated from the
source.) -/
def specJoinedFingerprint (cfg : ILanguageConfiguration) : String :=
  String.join ((configStylesArray cfg).getD [])

/-- Claim C1 (amended): handling a configuration-change event triggers a
reload of all open matching previews if and only if the new thumbprint —
the joined style list when the configuration carries a genuine styles
array, and the distinguished absent value otherwise — differs from the
immediately preceding stored thumbprint; the new thumbprint and the new
normalized path list are stored on every event, whether or not they
differ. -/
theorem onConfigFileChange_reload_iff_thumbprint (normAbs : String → String)
    (editors : List VisibleEditor) (s : MarkdownFileTracker.ConfigState)
    (cfg : ILanguageConfiguration) :
    (countReloadInvoke (MarkdownFileTracker.onConfigFileChange normAbs editors s cfg).2 = 1
       ↔ s.markdownConfigurationThumbprint ≠ MarkdownFileTracker.newThumbprintOf cfg)
    ∧ (MarkdownFileTracker.onConfigFileChange normAbs editors s cfg).1.markdownConfigurationThumbprint
        = MarkdownFileTracker.newThumbprintOf cfg
    ∧ (MarkdownFileTracker.onConfigFileChange normAbs editors s cfg).1.markdownConfigurationPaths
        = MarkdownFileTracker.newPathsOf normAbs cfg := by
  unfold MarkdownFileTracker.onConfigFileChange MarkdownFileTracker.readMarkdownConfiguration
  by_cases h : s.markdownConfigurationThumbprint = MarkdownFileTracker.newThumbprintOf cfg
  · simp [h, countReloadInvoke]
  · have h0 : countReloadInvoke
        (MarkdownFileTracker.reloadMarkdownEditors true none editors).2 = 0 :=
      countReloadInvoke_reloadMarkdownEditors true none editors
    simp only [countReloadInvoke] at h0
    simp [h, countReloadInvoke, List.countP_cons, isReloadInvoke, h0]

/-- Claim C1 (counterexample): after an event whose configuration lists
no styles (`styles: []`), an event with an absent configuration has the
same joined style list (both empty), yet it triggers a reload — the
stored thumbprint `some ""` differs from the absent thumbprint. -/
theorem onConfigFileChange_joined_fingerprint_counterexample :
    specJoinedFingerprint (mkStylesConfig []) = specJoinedFingerprint none
    ∧ countReloadInvoke
        (MarkdownFileTracker.onConfigFileChange id []
          (MarkdownFileTracker.readMarkdownConfiguration id
            MarkdownFileTracker.initConfigState (mkStylesConfig [])).2
          none).2 = 1 :=
  ⟨rfl, rfl⟩

/-- Claim C9: a configuration that is absent, lacks the markdown
style-list field, or carries a non-array value for it, degrades to an
empty stored style-path list (and an absent thumbprint); the handler is
a total function, so no error is raised. -/
theorem readMarkdownConfiguration_invalid_degrades (normAbs : String → String)
    (s : MarkdownFileTracker.ConfigState) (cfg : ILanguageConfiguration)
    (h : configStylesArray cfg = none) :
    (MarkdownFileTracker.readMarkdownConfiguration normAbs s cfg).2.markdownConfigurationPaths = []
    ∧ (MarkdownFileTracker.readMarkdownConfiguration normAbs s cfg).2.markdownConfigurationThumbprint
        = none := by
  unfold MarkdownFileTracker.readMarkdownConfiguration
  simp [MarkdownFileTracker.newPathsOf, MarkdownFileTracker.newThumbprintOf, h]

/-- Witness for C9 at the three degenerate configurations: absent
configuration, missing markdown section, and non-array styles value. -/
theorem readMarkdownConfiguration_invalid_degrades_witness :
    (configStylesArray none = none
      ∧ (MarkdownFileTracker.readMarkdownConfiguration id
          MarkdownFileTracker.initConfigState none).2.markdownConfigurationPaths = [])
    ∧ (configStylesArray (some { markdown := none }) = none
      ∧ (MarkdownFileTracker.readMarkdownConfiguration id
          MarkdownFileTracker.initConfigState
          (some { markdown := none })).2.markdownConfigurationPaths = [])
    ∧ (configStylesArray (some { markdown := some { styles := some StylesValue.other } }) = none
      ∧ (MarkdownFileTracker.readMarkdownConfiguration id
          MarkdownFileTracker.initConfigState
          (some { markdown := some { styles := some StylesValue.other } })).2.markdownConfigurationPaths
        = []) :=
  ⟨⟨rfl, (readMarkdownConfiguration_invalid_degrades id
      MarkdownFileTracker.initConfigState none rfl).1⟩,
   ⟨rfl, (readMarkdownConfiguration_invalid_degrades id
      MarkdownFileTracker.initConfigState (some { markdown := none }) rfl).1⟩,
   ⟨rfl, (readMarkdownConfiguration_invalid_degrades id
      MarkdownFileTracker.initConfigState
      (some { markdown := some { styles := some StylesValue.other } }) rfl).1⟩⟩

/-- Claim C10: the thumbprint is the separator-less concatenation of the
raw style paths, so the distinct lists `["ab"]` / `["a", "b"]` and
`["a"]` / `["a", ""]` collide, and a configuration update switching
between the lists of such a pair triggers no reload even with a preview
open. -/
theorem thumbprint_concatenation_collision :
    MarkdownFileTracker.newThumbprintOf (mkStylesConfig ["ab"]) = some "ab"
    ∧ MarkdownFileTracker.newThumbprintOf (mkStylesConfig ["a", "b"]) = some "ab"
    ∧ MarkdownFileTracker.newThumbprintOf (mkStylesConfig ["a"])
        = MarkdownFileTracker.newThumbprintOf (mkStylesConfig ["a", ""])
    ∧ (["ab"] : List String) ≠ ["a", "b"]
    ∧ (["a"] : List String) ≠ ["a", ""]
    ∧ countReloadInvoke
        (MarkdownFileTracker.onConfigFileChange id
          [{ input := EditorInputModel.markdownInput "doc", isIFrameEditor := true }]
          (MarkdownFileTracker.readMarkdownConfiguration id
            MarkdownFileTracker.initConfigState (mkStylesConfig ["ab"])).2
          (mkStylesConfig ["a", "b"])).2 = 0
    ∧ countReloadInvoke
        (MarkdownFileTracker.onConfigFileChange id
          [{ input := EditorInputModel.markdownInput "doc", isIFrameEditor := true }]
          (MarkdownFileTracker.readMarkdownConfiguration id
            MarkdownFileTracker.initConfigState (mkStylesConfig ["a"])).2
          (mkStylesConfig ["a", ""])).2 = 0 :=
  ⟨rfl, rfl, rfl, by decide, by decide, rfl, rfl⟩

/-- Claim C6: when the configured style-path list is non-empty and the
file-change event contains an `UPDATED` change for the resolved resource
of at least one configured style path, handling the event triggers
exactly one full reload (clearSurface = true, unscoped); when the list
is non-empty but no such change is present, no reload is triggered; and
when the list is empty, the handler performs no action at all — no
resource resolution and no reload. -/
theorem onFileChanges_reload_spec (toResource : String → URIStr)
    (editors : List VisibleEditor) (s : MarkdownFileTracker.ConfigState)
    (e : List FileChange) :
    (s.markdownConfigurationPaths ≠ [] →
       containsAny e (s.markdownConfigurationPaths.map toResource) FileChangeType.UPDATED = true →
       countReloadInvoke (MarkdownFileTracker.onFileChanges toResource editors s e) = 1
       ∧ Call.reloadInvoke true none ∈ MarkdownFileTracker.onFileChanges toResource editors s e)
    ∧ (s.markdownConfigurationPaths ≠ [] →
       containsAny e (s.markdownConfigurationPaths.map toResource) FileChangeType.UPDATED = false →
       countReloadInvoke (MarkdownFileTracker.onFileChanges toResource editors s e) = 0)
    ∧ (s.markdownConfigurationPaths = [] →
       MarkdownFileTracker.onFileChanges toResource editors s e = []) := by
  have h0 : countReloadInvoke
      (MarkdownFileTracker.reloadMarkdownEditors true none editors).2 = 0 :=
    countReloadInvoke_reloadMarkdownEditors true none editors
  have hres : ∀ ps : List String,
      countReloadInvoke (ps.map Call.toResourceCall) = 0 := by
    intro ps
    rw [countReloadInvoke, List.countP_eq_zero]
    intro c hc
    rcases List.mem_map.mp hc with ⟨p, _, rfl⟩
    simp [isReloadInvoke]
  refine ⟨?_, ?_, ?_⟩
  · intro hne hcontains
    have hlen : ¬ s.markdownConfigurationPaths.length = 0 := by
      simpa [List.length_eq_zero] using hne
    unfold MarkdownFileTracker.onFileChanges
    rw [if_neg hlen, if_pos hcontains]
    constructor
    · simp only [countReloadInvoke] at h0 hres ⊢
      simp [List.countP_append, List.countP_cons, isReloadInvoke, h0, hres]
    · simp
  · intro hne hcontains
    have hlen : ¬ s.markdownConfigurationPaths.length = 0 := by
      simpa [List.length_eq_zero] using hne
    unfold MarkdownFileTracker.onFileChanges
    rw [if_neg hlen]
    simp [hcontains, hres]
  · intro hempty
    unfold MarkdownFileTracker.onFileChanges
    simp [hempty]

/-- Witness for C6: with style list `["/a.css"]` an `UPDATED` change for
`/a.css` triggers exactly one full reload; with an empty style list the
same event produces an empty trace. -/
theorem onFileChanges_reload_spec_witness :
    countReloadInvoke
      (MarkdownFileTracker.onFileChanges id
        [{ input := EditorInputModel.markdownInput "doc", isIFrameEditor := true }]
        { markdownConfigurationThumbprint := some "a.css",
          markdownConfigurationPaths := ["/a.css"] }
        [{ resource := "/a.css", kind := FileChangeType.UPDATED }]) = 1
    ∧ MarkdownFileTracker.onFileChanges id
        [{ input := EditorInputModel.markdownInput "doc", isIFrameEditor := true }]
        { markdownConfigurationThumbprint := none, markdownConfigurationPaths := [] }
        [{ resource := "/a.css", kind := FileChangeType.UPDATED }] = [] :=
  ⟨((onFileChanges_reload_spec id
      [{ input := EditorInputModel.markdownInput "doc", isIFrameEditor := true }]
      { markdownConfigurationThumbprint := some "a.css",
        markdownConfigurationPaths := ["/a.css"] }
      [{ resource := "/a.css", kind := FileChangeType.UPDATED }]).1
      (by decide) (by decide)).1,
   (onFileChanges_reload_spec id
      [{ input := EditorInputModel.markdownInput "doc", isIFrameEditor := true }]
      { markdownConfigurationThumbprint := none, markdownConfigurationPaths := [] }
      [{ resource := "/a.css", kind := FileChangeType.UPDATED }]).2.2 rfl⟩

/-- Claim C7: a theme-change event carrying a (truthy) theme identifier
produces exactly one mode reconfiguration — with the derived base
theme — followed by exactly one full-reload invocation
(clearSurface = true, unscoped), for any set of open editors. -/
theorem onThemeChange_one_configure_one_reload (getBaseThemeId : String → String)
    (editors : List VisibleEditor) (themeId : String) (h : themeId ≠ "") :
    MarkdownFileTracker.onThemeChange getBaseThemeId editors themeId
      = Call.configureModeCall "text/x-web-markdown" (getBaseThemeId themeId)
        :: Call.reloadInvoke true none
        :: (MarkdownFileTracker.reloadMarkdownEditors true none editors).2
    ∧ countConfigureModeCalls
        (MarkdownFileTracker.onThemeChange getBaseThemeId editors themeId) = 1
    ∧ countReloadInvoke
        (MarkdownFileTracker.onThemeChange getBaseThemeId editors themeId) = 1 := by
  have htrace : MarkdownFileTracker.onThemeChange getBaseThemeId editors themeId
      = Call.configureModeCall "text/x-web-markdown" (getBaseThemeId themeId)
        :: Call.reloadInvoke true none
        :: (MarkdownFileTracker.reloadMarkdownEditors true none editors).2 := by
    unfold MarkdownFileTracker.onThemeChange MarkdownFileTracker.configureMode
    rw [if_pos h]
    rfl
  have hr : countReloadInvoke
      (MarkdownFileTracker.reloadMarkdownEditors true none editors).2 = 0 :=
    countReloadInvoke_reloadMarkdownEditors true none editors
  have hcm : countConfigureModeCalls
      (MarkdownFileTracker.reloadMarkdownEditors true none editors).2 = 0 :=
    countConfigureModeCalls_reloadMarkdownEditors true none editors
  refine ⟨htrace, ?_, ?_⟩
  · rw [htrace]
    simp only [countConfigureModeCalls] at hcm ⊢
    simp [List.countP_cons, isConfigureModeCall, hcm]
  · rw [htrace]
    simp only [countReloadInvoke] at hr ⊢
    simp [List.countP_cons, isReloadInvoke, hr]

/-- Witness for C7 at theme `"dark"` with two open previews. -/
theorem onThemeChange_one_configure_one_reload_witness :
    ("dark" : String) ≠ ""
    ∧ countConfigureModeCalls
        (MarkdownFileTracker.onThemeChange id
          [{ input := EditorInputModel.markdownInput "a", isIFrameEditor := true },
           { input := EditorInputModel.markdownInput "b", isIFrameEditor := true }]
          "dark") = 1
    ∧ countReloadInvoke
        (MarkdownFileTracker.onThemeChange id
          [{ input := EditorInputModel.markdownInput "a", isIFrameEditor := true },
           { input := EditorInputModel.markdownInput "b", isIFrameEditor := true }]
          "dark") = 1 :=
  ⟨by decide,
   (onThemeChange_one_configure_one_reload id
      [{ input := EditorInputModel.markdownInput "a", isIFrameEditor := true },
       { input := EditorInputModel.markdownInput "b", isIFrameEditor := true }]
      "dark" (by decide)).2.1,
   (onThemeChange_one_configure_one_reload id
      [{ input := EditorInputModel.markdownInput "a", isIFrameEditor := true },
       { input := EditorInputModel.markdownInput "b", isIFrameEditor := true }]
      "dark" (by decide)).2.2⟩

namespace MarkdownFileTracker

/-- The listener-tracking part of the tracker state: the
`hasModelListenerOnResourcePath` flag map, plus the resources that
currently have an attached content-change listener (the live
`toUnbind` bundles). -/
structure ListenerState where
  hasModelListenerOnResourcePath : URIStr → Bool
  attachedListeners : List URIStr

/-- The state established by the constructor (line 59 of the source):
empty flag map, no attached listeners. -/
def initListenerState : ListenerState :=
  { hasModelListenerOnResourcePath := fun _ => false, attachedListeners := [] }

/-- `unbind` (lines 90-94 of the source): dispose the per-document
subscription bundle and clear the has-listener flag. -/
def unbind (r : URIStr) (s : ListenerState) : ListenerState :=
  { hasModelListenerOnResourcePath :=
      fun p => if p = r then false else s.hasModelListenerOnResourcePath p,
    attachedListeners := s.attachedListeners.erase r }

/-- The debounce-timer callback body (lines 102-106 of the source):
reload the preview of this one document without clearing its surface;
when the reload finds no matching open preview, tear the listener down. -/
def reloadTimeoutCallback (editors : List VisibleEditor) (r : URIStr)
    (s : ListenerState) : ListenerState × List Call :=
  let result := reloadMarkdownEditors false (some r) editors
  if result.1 then (s, Call.reloadInvoke false (some r) :: result.2)
  else (unbind r s, Call.reloadInvoke false (some r) :: result.2)

/-- What the tracker observes about the active editor on an editor-set
change: the resource of its `MarkdownEditorInput`, and whether the model
service returns a live model for it; `none` when the active input is not
a markdown preview input. -/
structure ActiveEditorInfo where
  resource : URIStr
  modelPresent : Bool
deriving DecidableEq, Repr

/-- `onEditorsChanged` (lines 83-117 of the source), restricted to its
state effect: when the active editor is a markdown input with a live
model and no listener is attached for its resource yet, attach a
content-change listener and set the flag; otherwise do nothing. -/
def onEditorsChanged (active : Option ActiveEditorInfo) (s : ListenerState) : ListenerState :=
  match active with
  | some info =>
    if info.modelPresent && !(s.hasModelListenerOnResourcePath info.resource) then
      { hasModelListenerOnResourcePath :=
          fun p => if p = info.resource then true else s.hasModelListenerOnResourcePath p,
        attachedListeners := info.resource :: s.attachedListeners }
    else s
  | none => s

/-- The events that touch the listener-tracking state: an editor-set
change, the preview input's dispose signal, the model's dispose signal,
and the debounce timer firing against the currently visible editors. -/
inductive ListenerEvent
  | editorsChangedEvent (active : Option ActiveEditorInfo)
  | inputDisposeEvent (r : URIStr)
  | modelWillDisposeEvent (r : URIStr)
  | timerFireEvent (r : URIStr) (editors : List VisibleEditor)

/-- One step of the listener-tracking state machine. -/
def stepListener (s : ListenerState) : ListenerEvent → ListenerState
  | ListenerEvent.editorsChangedEvent active => onEditorsChanged active s
  | ListenerEvent.inputDisposeEvent r => unbind r s
  | ListenerEvent.modelWillDisposeEvent r => unbind r s
  | ListenerEvent.timerFireEvent r editors => (reloadTimeoutCallback editors r s).1

/-- The per-document listener invariant: every resource has at most one
attached content-change listener, and the has-listener flag is set
exactly when a listener is attached. -/
def ListenerInv (s : ListenerState) : Prop :=
  ∀ r, s.attachedListeners.count r ≤ 1
    ∧ (s.hasModelListenerOnResourcePath r = true ↔ r ∈ s.attachedListeners)

/-- Does a visible editor show the markdown preview of `r`
(a `MarkdownEditorInput` of that resource inside an `IFrameEditor`)? -/
def showsPreviewOf (r : URIStr) (editor : VisibleEditor) : Bool :=
  match editor.input with
  | EditorInputModel.markdownInput res => editor.isIFrameEditor && matchesResource (some r) res
  | EditorInputModel.otherInput => false

end MarkdownFileTracker

/-- `unbind` preserves the listener invariant. -/
theorem listenerInv_unbind (r : URIStr) (s : MarkdownFileTracker.ListenerState)
    (h : MarkdownFileTracker.ListenerInv s) :
    MarkdownFileTracker.ListenerInv (MarkdownFileTracker.unbind r s) := by
  intro p
  obtain ⟨hcount, hflag⟩ := h p
  constructor
  · exact le_trans ((List.erase_sublist r s.attachedListeners).count_le p) hcount
  · unfold MarkdownFileTracker.unbind
    by_cases hpr : p = r
    · subst hpr
      simp only [if_pos rfl]
      constructor
      · intro hfalse; exact absurd hfalse (by simp)
      · intro hmem
        have h2 : (s.attachedListeners.erase p).count p = s.attachedListeners.count p - 1 :=
          List.count_erase_self p s.attachedListeners
        have h3 : 0 < (s.attachedListeners.erase p).count p := List.count_pos_iff.mpr hmem
        omega
    · simp only [if_neg hpr]
      rw [List.mem_erase_of_ne hpr]
      exact hflag

/-- Claim C8: every operation touching the listener-tracking state — an
editor-set change, the input dispose signal, the model dispose signal,
and the debounce-timer callback — preserves the invariant that each
document has at most one attached content-change listener and that the
has-listener flag is set exactly when a listener is attached. -/
theorem stepListener_preserves_listenerInv (s : MarkdownFileTracker.ListenerState)
    (e : MarkdownFileTracker.ListenerEvent) (h : MarkdownFileTracker.ListenerInv s) :
    MarkdownFileTracker.ListenerInv (MarkdownFileTracker.stepListener s e) := by
  cases e with
  | editorsChangedEvent active =>
    cases active with
    | none => exact h
    | some info =>
      show MarkdownFileTracker.ListenerInv (MarkdownFileTracker.onEditorsChanged (some info) s)
      unfold MarkdownFileTracker.onEditorsChanged
      dsimp only
      by_cases hguard :
          (info.modelPresent && !(s.hasModelListenerOnResourcePath info.resource)) = true
      · rw [if_pos hguard]
        have hflagfalse : s.hasModelListenerOnResourcePath info.resource = false := by
          have h2 := hguard
          simp only [Bool.and_eq_true, Bool.not_eq_true'] at h2
          exact h2.2
        have hnotmem : info.resource ∉ s.attachedListeners := by
          intro hmem
          have := (h info.resource).2.mpr hmem
          rw [hflagfalse] at this
          exact absurd this (by simp)
        intro p
        obtain ⟨hcount, hflag⟩ := h p
        by_cases hpr : p = info.resource
        · subst hpr
          constructor
          · rw [List.count_cons_self]
            have h0 : s.attachedListeners.count info.resource = 0 :=
              List.count_eq_zero.mpr hnotmem
            omega
          · simp
        · constructor
          · rw [List.count_cons_of_ne hpr]
            exact hcount
          · simp only [if_neg hpr, List.mem_cons]
            rw [hflag]
            constructor
            · exact Or.inr
            · intro hor
              rcases hor with heq | hmem
              · exact absurd heq hpr
              · exact hmem
      · rw [if_neg hguard]
        exact h
  | inputDisposeEvent r => exact listenerInv_unbind r s h
  | modelWillDisposeEvent r => exact listenerInv_unbind r s h
  | timerFireEvent r editors =>
    show MarkdownFileTracker.ListenerInv (MarkdownFileTracker.reloadTimeoutCallback editors r s).1
    unfold MarkdownFileTracker.reloadTimeoutCallback
    by_cases hdid : (MarkdownFileTracker.reloadMarkdownEditors false (some r) editors).1 = true
    · rw [if_pos hdid]
      exact h
    · rw [if_neg hdid]
      exact listenerInv_unbind r s h

/-- Witness for C8: the invariant holds in the initial state and is
preserved when an editor-set change attaches a listener for `"doc"`. -/
theorem stepListener_preserves_listenerInv_witness :
    MarkdownFileTracker.ListenerInv MarkdownFileTracker.initListenerState
    ∧ MarkdownFileTracker.ListenerInv
        (MarkdownFileTracker.stepListener MarkdownFileTracker.initListenerState
          (MarkdownFileTracker.ListenerEvent.editorsChangedEvent
            (some { resource := "doc", modelPresent := true }))) := by
  have hinit : MarkdownFileTracker.ListenerInv MarkdownFileTracker.initListenerState := by
    intro r
    simp [MarkdownFileTracker.initListenerState, MarkdownFileTracker.ListenerInv]
  exact ⟨hinit, stepListener_preserves_listenerInv _ _ hinit⟩

/-- When no visible editor shows the preview of `r`, the scoped reload
finds nothing and reports `false` with no per-editor reload call. -/
theorem reloadMarkdownEditors_no_match (clearIFrame : Bool) (r : URIStr) :
    ∀ editors : List VisibleEditor,
      (∀ editor ∈ editors, MarkdownFileTracker.showsPreviewOf r editor = false) →
      MarkdownFileTracker.reloadMarkdownEditors clearIFrame (some r) editors = (false, []) := by
  intro editors
  induction editors with
  | nil => intro _; rfl
  | cons editor rest ih =>
    intro hall
    have hhead : MarkdownFileTracker.showsPreviewOf r editor = false :=
      hall editor (List.mem_cons_self editor rest)
    have htail := ih fun ed hed => hall ed (List.mem_cons_of_mem editor hed)
    show MarkdownFileTracker.reloadMarkdownEditors clearIFrame (some r) (editor :: rest)
      = (false, [])
    unfold MarkdownFileTracker.reloadMarkdownEditors
    rcases hinp : editor.input with res | _
    · have hguard : (editor.isIFrameEditor
          && MarkdownFileTracker.matchesResource (some r) res) = false := by
        unfold MarkdownFileTracker.showsPreviewOf at hhead
        rw [hinp] at hhead
        exact hhead
      dsimp only
      rw [hguard]
      simpa using htail
    · exact htail

/-- Claim C5: if the previewed editor of a document was closed before
the pending debounce timer fires, the fired callback finds no matching
open preview (the reload operation returns `false` and performs zero
per-editor reload actions) and deregisters the document's content-change
listener, the has-listener flag returning to `false`. -/
theorem reloadTimeoutCallback_preview_closed (editors : List VisibleEditor) (r : URIStr)
    (s : MarkdownFileTracker.ListenerState)
    (hclosed : ∀ editor ∈ editors, MarkdownFileTracker.showsPreviewOf r editor = false)
    (hcount : s.attachedListeners.count r ≤ 1) :
    countIFrameReloads (MarkdownFileTracker.reloadTimeoutCallback editors r s).2 = 0
    ∧ (MarkdownFileTracker.reloadMarkdownEditors false (some r) editors).1 = false
    ∧ (MarkdownFileTracker.reloadTimeoutCallback editors r s).1.hasModelListenerOnResourcePath r
        = false
    ∧ r ∉ (MarkdownFileTracker.reloadTimeoutCallback editors r s).1.attachedListeners := by
  have hre := reloadMarkdownEditors_no_match false r editors hclosed
  have hcb : MarkdownFileTracker.reloadTimeoutCallback editors r s
      = (MarkdownFileTracker.unbind r s, [Call.reloadInvoke false (some r)]) := by
    unfold MarkdownFileTracker.reloadTimeoutCallback
    rw [hre]
    rfl
  refine ⟨?_, ?_, ?_, ?_⟩
  · rw [hcb]
    rfl
  · rw [hre]
  · rw [hcb]
    simp [MarkdownFileTracker.unbind]
  · rw [hcb]
    show r ∉ s.attachedListeners.erase r
    intro hmem
    have h2 : (s.attachedListeners.erase r).count r = s.attachedListeners.count r - 1 :=
      List.count_erase_self r s.attachedListeners
    have h3 : 0 < (s.attachedListeners.erase r).count r := List.count_pos_iff.mpr hmem
    omega

/-- A listener state with exactly one attached listener, for `"doc"`. -/
def sampleListenerState : MarkdownFileTracker.ListenerState :=
  { hasModelListenerOnResourcePath := fun p => decide (p = "doc"),
    attachedListeners := ["doc"] }

/-- Witness for C5: the preview of `"doc"` is closed (only an unrelated
editor is visible), the timer fires, no reload action happens, and the
listener for `"doc"` is deregistered. -/
theorem reloadTimeoutCallback_preview_closed_witness :
    (∀ editor ∈ ([{ input := EditorInputModel.otherInput, isIFrameEditor := true }] :
        List VisibleEditor), MarkdownFileTracker.showsPreviewOf "doc" editor = false)
    ∧ sampleListenerState.attachedListeners.count "doc" ≤ 1
    ∧ countIFrameReloads
        (MarkdownFileTracker.reloadTimeoutCallback
          [{ input := EditorInputModel.otherInput, isIFrameEditor := true }] "doc"
          sampleListenerState).2 = 0
    ∧ (MarkdownFileTracker.reloadTimeoutCallback
          [{ input := EditorInputModel.otherInput, isIFrameEditor := true }] "doc"
          sampleListenerState).1.hasModelListenerOnResourcePath "doc" = false
    ∧ "doc" ∉ (MarkdownFileTracker.reloadTimeoutCallback
          [{ input := EditorInputModel.otherInput, isIFrameEditor := true }] "doc"
          sampleListenerState).1.attachedListeners := by
  have h1 : ∀ editor ∈ ([{ input := EditorInputModel.otherInput, isIFrameEditor := true }] :
      List VisibleEditor), MarkdownFileTracker.showsPreviewOf "doc" editor = false := by
    decide
  have h2 : sampleListenerState.attachedListeners.count "doc" ≤ 1 := by decide
  obtain ⟨ha, _, hc, hd⟩ := reloadTimeoutCallback_preview_closed
    [{ input := EditorInputModel.otherInput, isIFrameEditor := true }] "doc"
    sampleListenerState h1 h2
  exact ⟨h1, h2, ha, hc, hd⟩

namespace MarkdownFileTracker

/-- A scheduled `setTimeout` timer: its id, its absolute fire instant,
and the document resource its callback closes over. -/
structure ScheduledTimer where
  id : Nat
  fireAt : Nat
  resource : URIStr
deriving DecidableEq, Repr

/-- The timer subsystem: the live timers held by the host, the tracker's
`reloadTimeout` field (the id handed to `clearTimeout`; never reset
after a timer fires, exactly as in the source), and the next fresh
timer id. -/
structure TimerState where
  scheduled : List ScheduledTimer
  reloadTimeout : Option Nat
  nextId : Nat
deriving DecidableEq, Repr

/-- No timer scheduled, `reloadTimeout` unset. -/
def initTimerState : TimerState :=
  { scheduled := [], reloadTimeout := none, nextId := 0 }

/-- The content-change listener body (lines 97-107 of the source): when
`reloadTimeout` holds an id, `clearTimeout` it — cancelling the pending
timer if that id is still scheduled — then schedule a fresh timer firing
`RELOAD_MARKDOWN_DELAY` after the current instant `t` and remember its
id in `reloadTimeout`. -/
def onDidChangeContent (t : Nat) (r : URIStr) (s : TimerState) : TimerState :=
  let cleared :=
    match s.reloadTimeout with
    | some timeoutId => s.scheduled.filter fun tm => tm.id != timeoutId
    | none => s.scheduled
  { scheduled :=
      cleared ++ [{ id := s.nextId, fireAt := t + RELOAD_MARKDOWN_DELAY, resource := r }],
    reloadTimeout := some s.nextId,
    nextId := s.nextId + 1 }

/-- The host's timer dispatch at instant `now`: fire (and drop) every
scheduled timer whose fire instant has been reached. -/
def fireDue (now : Nat) (s : TimerState) : List ScheduledTimer × TimerState :=
  (s.scheduled.filter fun tm => decide (tm.fireAt ≤ now),
   { s with scheduled := s.scheduled.filter fun tm => !decide (tm.fireAt ≤ now) })

/-- Run a burst of content-change events for document `r` at the given
instants: before each event the due timers fire, then the event is
handled.  Returns every timer that fired during the run, with the final
state. -/
def runContentEvents (r : URIStr) : TimerState → List Nat → List ScheduledTimer × TimerState
  | s, [] => ([], s)
  | s, t :: ts =>
    let stepFire := fireDue t s
    let s2 := onDidChangeContent t r stepFire.2
    let rest := runContentEvents r s2 ts
    (stepFire.1 ++ rest.1, rest.2)

/-- Timer invariant: at most one timer is scheduled, and when one is,
the tracker's `reloadTimeout` field holds its id. -/
def TimerInv (s : TimerState) : Prop :=
  s.scheduled = [] ∨ ∃ tm, s.scheduled = [tm] ∧ s.reloadTimeout = some tm.id

/-- An armed debounce state: exactly one timer is scheduled, firing at
`d` with a callback targeting `r`, and `reloadTimeout` holds its id. -/
def Armed (s : TimerState) (d : Nat) (r : URIStr) : Prop :=
  ∃ timerId, s.scheduled = [{ id := timerId, fireAt := d, resource := r }]
    ∧ s.reloadTimeout = some timerId

end MarkdownFileTracker

/-- An armed state satisfies the timer invariant. -/
theorem armed_timerInv {s : MarkdownFileTracker.TimerState} {d : Nat} {r : URIStr}
    (h : MarkdownFileTracker.Armed s d r) : MarkdownFileTracker.TimerInv s := by
  obtain ⟨timerId, hsch, hrt⟩ := h
  exact Or.inr ⟨{ id := timerId, fireAt := d, resource := r }, hsch, hrt⟩

/-- Handling a content-change event from an invariant state always
leaves exactly one timer pending, firing `RELOAD_MARKDOWN_DELAY` after
the event. -/
theorem onDidChangeContent_armed (t : Nat) (r : URIStr) (s : MarkdownFileTracker.TimerState)
    (h : MarkdownFileTracker.TimerInv s) :
    MarkdownFileTracker.Armed (MarkdownFileTracker.onDidChangeContent t r s)
      (t + MarkdownFileTracker.RELOAD_MARKDOWN_DELAY) r := by
  obtain ⟨sch, rt, nid⟩ := s
  refine ⟨nid, ?_, rfl⟩
  rcases h with hempty | ⟨tm, hsch, hrt⟩
  · simp only at hempty
    subst hempty
    unfold MarkdownFileTracker.onDidChangeContent
    cases rt <;> simp
  · simp only at hsch hrt
    subst hsch
    subst hrt
    unfold MarkdownFileTracker.onDidChangeContent
    simp

/-- An armed timer whose fire instant has not been reached does not
fire: the dispatch is the identity. -/
theorem fireDue_not_due {s : MarkdownFileTracker.TimerState} {d : Nat} {r : URIStr}
    (h : MarkdownFileTracker.Armed s d r) (now : Nat) (hlt : now < d) :
    MarkdownFileTracker.fireDue now s = ([], s) := by
  obtain ⟨timerId, hsch, _⟩ := h
  obtain ⟨sch, rt, nid⟩ := s
  simp only at hsch
  subst hsch
  unfold MarkdownFileTracker.fireDue
  have hd : ¬ (d ≤ now) := by omega
  simp [hd]

/-- The timer dispatch preserves the timer invariant. -/
theorem timerInv_fireDue (now : Nat) (s : MarkdownFileTracker.TimerState)
    (h : MarkdownFileTracker.TimerInv s) :
    MarkdownFileTracker.TimerInv (MarkdownFileTracker.fireDue now s).2 := by
  obtain ⟨sch, rt, nid⟩ := s
  rcases h with hempty | ⟨tm, hsch, hrt⟩
  · simp only at hempty
    subst hempty
    exact Or.inl rfl
  · simp only at hsch hrt
    subst hsch
    subst hrt
    unfold MarkdownFileTracker.fireDue
    by_cases hdue : tm.fireAt ≤ now
    · exact Or.inl (by simp [hdue])
    · exact Or.inr ⟨tm, by simp [hdue], rfl⟩

/-- Running any burst of content-change events preserves the timer
invariant. -/
theorem timerInv_runContentEvents (r : URIStr) :
    ∀ (events : List Nat) (s : MarkdownFileTracker.TimerState),
      MarkdownFileTracker.TimerInv s →
      MarkdownFileTracker.TimerInv (MarkdownFileTracker.runContentEvents r s events).2 := by
  intro events
  induction events with
  | nil => intro s h; exact h
  | cons t ts ih =>
    intro s h
    show MarkdownFileTracker.TimerInv
      (MarkdownFileTracker.runContentEvents r
        (MarkdownFileTracker.onDidChangeContent t r (MarkdownFileTracker.fireDue t s).2) ts).2
    exact ih _ (armed_timerInv (onDidChangeContent_armed t r _ (timerInv_fireDue t s h)))

/-- During a burst with gaps shorter than the debounce delay, starting
from an armed state, no timer ever fires and the run ends armed at
`RELOAD_MARKDOWN_DELAY` past the last event. -/
theorem runContentEvents_quiet (r : URIStr) :
    ∀ (ts : List Nat) (t : Nat) (s : MarkdownFileTracker.TimerState),
      MarkdownFileTracker.Armed s (t + MarkdownFileTracker.RELOAD_MARKDOWN_DELAY) r →
      List.Chain' (fun a b => a ≤ b ∧ b < a + MarkdownFileTracker.RELOAD_MARKDOWN_DELAY)
        (t :: ts) →
      (MarkdownFileTracker.runContentEvents r s ts).1 = []
      ∧ MarkdownFileTracker.Armed (MarkdownFileTracker.runContentEvents r s ts).2
          ((t :: ts).getLast (List.cons_ne_nil t ts) + MarkdownFileTracker.RELOAD_MARKDOWN_DELAY)
          r := by
  intro ts
  induction ts with
  | nil =>
    intro t s harmed _
    exact ⟨rfl, by simpa using harmed⟩
  | cons t2 ts2 ih =>
    intro t s harmed hchain
    have hsplit := List.chain'_cons.mp hchain
    have hgap : t ≤ t2 ∧ t2 < t + MarkdownFileTracker.RELOAD_MARKDOWN_DELAY := hsplit.1
    have hfd : MarkdownFileTracker.fireDue t2 s = ([], s) :=
      fireDue_not_due harmed t2 hgap.2
    have harmed2 : MarkdownFileTracker.Armed (MarkdownFileTracker.onDidChangeContent t2 r s)
        (t2 + MarkdownFileTracker.RELOAD_MARKDOWN_DELAY) r :=
      onDidChangeContent_armed t2 r s (armed_timerInv harmed)
    obtain ⟨h1, h2⟩ := ih t2 (MarkdownFileTracker.onDidChangeContent t2 r s) harmed2 hsplit.2
    constructor
    · show ((MarkdownFileTracker.fireDue t2 s).1
        ++ (MarkdownFileTracker.runContentEvents r
            (MarkdownFileTracker.onDidChangeContent t2 r (MarkdownFileTracker.fireDue t2 s).2)
            ts2).1) = []
      rw [hfd]
      simpa using h1
    · show MarkdownFileTracker.Armed
        (MarkdownFileTracker.runContentEvents r
          (MarkdownFileTracker.onDidChangeContent t2 r (MarkdownFileTracker.fireDue t2 s).2)
          ts2).2 _ r
      rw [hfd]
      rw [List.getLast_cons (List.cons_ne_nil t2 ts2)]
      exact h2

/-- Claim C2: for a previewed document with an attached content-change
listener, a burst of N ≥ 1 content-change events in which each event
arrives less than `RELOAD_MARKDOWN_DELAY` (300ms) after the previous one
fires no timer during the burst and leaves exactly one timer pending,
set to fire 300ms after the last event; at most one debounce timer is
pending process-wide after any event sequence (each new event cancels
the previously pending timer); and the pending callback, when it fires,
makes exactly one reload invocation, scoped to that document with
`clearSurface = false`. -/
theorem debounce_coalesces_to_single_reload (r : URIStr) (t0 : Nat) (ts : List Nat)
    (hchain : List.Chain'
      (fun a b => a ≤ b ∧ b < a + MarkdownFileTracker.RELOAD_MARKDOWN_DELAY) (t0 :: ts)) :
    (MarkdownFileTracker.runContentEvents r MarkdownFileTracker.initTimerState (t0 :: ts)).1 = []
    ∧ MarkdownFileTracker.Armed
        (MarkdownFileTracker.runContentEvents r MarkdownFileTracker.initTimerState (t0 :: ts)).2
        ((t0 :: ts).getLast (List.cons_ne_nil t0 ts)
          + MarkdownFileTracker.RELOAD_MARKDOWN_DELAY) r
    ∧ (∀ events : List Nat,
        ((MarkdownFileTracker.runContentEvents r MarkdownFileTracker.initTimerState
            events).2.scheduled).length ≤ 1)
    ∧ (∀ (editors : List VisibleEditor) (ls : MarkdownFileTracker.ListenerState),
        countReloadInvoke (MarkdownFileTracker.reloadTimeoutCallback editors r ls).2 = 1
        ∧ (MarkdownFileTracker.reloadTimeoutCallback editors r ls).2.head?
            = some (Call.reloadInvoke false (some r))) := by
  have hfd0 : MarkdownFileTracker.fireDue t0 MarkdownFileTracker.initTimerState
      = ([], MarkdownFileTracker.initTimerState) := rfl
  have harmed0 : MarkdownFileTracker.Armed
      (MarkdownFileTracker.onDidChangeContent t0 r MarkdownFileTracker.initTimerState)
      (t0 + MarkdownFileTracker.RELOAD_MARKDOWN_DELAY) r :=
    onDidChangeContent_armed t0 r _ (Or.inl rfl)
  obtain ⟨h1, h2⟩ := runContentEvents_quiet r ts t0
    (MarkdownFileTracker.onDidChangeContent t0 r MarkdownFileTracker.initTimerState)
    harmed0 hchain
  refine ⟨?_, ?_, ?_, ?_⟩
  · show ((MarkdownFileTracker.fireDue t0 MarkdownFileTracker.initTimerState).1
      ++ (MarkdownFileTracker.runContentEvents r
          (MarkdownFileTracker.onDidChangeContent t0 r
            (MarkdownFileTracker.fireDue t0 MarkdownFileTracker.initTimerState).2) ts).1) = []
    rw [hfd0]
    simpa using h1
  · show MarkdownFileTracker.Armed
      (MarkdownFileTracker.runContentEvents r
        (MarkdownFileTracker.onDidChangeContent t0 r
          (MarkdownFileTracker.fireDue t0 MarkdownFileTracker.initTimerState).2) ts).2 _ r
    rw [hfd0]
    exact h2
  · intro events
    have hinv := timerInv_runContentEvents r events MarkdownFileTracker.initTimerState
      (Or.inl rfl)
    rcases hinv with hempty | ⟨tm, hsch, _⟩
    · rw [hempty]; exact Nat.zero_le 1
    · rw [hsch]; exact le_refl 1
  · intro editors ls
    have hcount : countReloadInvoke
        (MarkdownFileTracker.reloadMarkdownEditors false (some r) editors).2 = 0 :=
      countReloadInvoke_reloadMarkdownEditors false (some r) editors
    unfold MarkdownFileTracker.reloadTimeoutCallback
    by_cases hdid : (MarkdownFileTracker.reloadMarkdownEditors false (some r) editors).1 = true
    · simp only [countReloadInvoke] at hcount ⊢
      simp [hdid, List.countP_cons, isReloadInvoke, hcount]
    · simp only [countReloadInvoke] at hcount ⊢
      simp [hdid, List.countP_cons, isReloadInvoke, hcount]

/-- Witness for C2: three events at instants 0, 100, 250 (gaps below
300ms) leave no fired timer and one pending timer at instant 550. -/
theorem debounce_coalesces_to_single_reload_witness :
    List.Chain' (fun a b => a ≤ b ∧ b < a + MarkdownFileTracker.RELOAD_MARKDOWN_DELAY)
      [0, 100, 250]
    ∧ (MarkdownFileTracker.runContentEvents "doc" MarkdownFileTracker.initTimerState
        [0, 100, 250]).1 = []
    ∧ MarkdownFileTracker.Armed
        (MarkdownFileTracker.runContentEvents "doc" MarkdownFileTracker.initTimerState
          [0, 100, 250]).2
        ([0, 100, 250].getLast (List.cons_ne_nil 0 [100, 250])
          + MarkdownFileTracker.RELOAD_MARKDOWN_DELAY) "doc" := by
  have hchain : List.Chain'
      (fun a b => a ≤ b ∧ b < a + MarkdownFileTracker.RELOAD_MARKDOWN_DELAY) [0, 100, 250] := by
    norm_num [List.chain'_cons, List.chain'_singleton, MarkdownFileTracker.RELOAD_MARKDOWN_DELAY]
  obtain ⟨h1, h2, _, _⟩ := debounce_coalesces_to_single_reload "doc" 0 [100, 250] hchain
  exact ⟨hchain, h1, h2⟩

namespace MarkdownFileTracker

/-- Which of the four top-level listener registration fields currently
hold a live registration (non-null). -/
structure DisposableFields where
  fileChangeListener : Bool
  configFileChangeListener : Bool
  editorInputChangeListener : Bool
  themeChangeListener : Bool
deriving DecidableEq, Repr

/-- The four top-level listener registrations. -/
inductive ListenerName
  | fileChange
  | configFileChange
  | editorInputChange
  | themeChange
deriving DecidableEq, Repr

/-- After `registerListeners` all four fields hold registrations. -/
def registeredFields : DisposableFields :=
  { fileChangeListener := true, configFileChangeListener := true,
    editorInputChangeListener := true, themeChangeListener := true }

/-- `dispose` (lines 189-204 of the source): null-check, dispose and
null out `fileChangeListener`, `configFileChangeListener` and
`editorInputChangeListener`, in that order; returns the registrations
actually released.  `themeChangeListener` does not occur in the method
body. -/
def dispose (s : DisposableFields) : DisposableFields × List ListenerName :=
  let step1 : DisposableFields × List ListenerName :=
    if s.fileChangeListener then
      ({ s with fileChangeListener := false }, [ListenerName.fileChange])
    else (s, [])
  let step2 : DisposableFields × List ListenerName :=
    if step1.1.configFileChangeListener then
      ({ step1.1 with configFileChangeListener := false },
        step1.2 ++ [ListenerName.configFileChange])
    else step1
  if step2.1.editorInputChangeListener then
    ({ step2.1 with editorInputChangeListener := false },
      step2.2 ++ [ListenerName.editorInputChange])
  else step2

end MarkdownFileTracker

/-- Claim C3 (code divergence): `dispose` on a fully registered tracker
releases only the file-change, configuration-change and editor-set
listener registrations, leaving the theme-change listener registration
in place; a second `dispose` releases nothing and changes nothing
(idempotent per listener for the three it handles). -/
theorem dispose_releases_three_listeners :
    (MarkdownFileTracker.dispose MarkdownFileTracker.registeredFields).2
      = [MarkdownFileTracker.ListenerName.fileChange,
         MarkdownFileTracker.ListenerName.configFileChange,
         MarkdownFileTracker.ListenerName.editorInputChange]
    ∧ (MarkdownFileTracker.dispose MarkdownFileTracker.registeredFields).1.themeChangeListener
        = true
    ∧ (MarkdownFileTracker.dispose
        (MarkdownFileTracker.dispose MarkdownFileTracker.registeredFields).1).2 = []
    ∧ (MarkdownFileTracker.dispose
        (MarkdownFileTracker.dispose MarkdownFileTracker.registeredFields).1).1
      = (MarkdownFileTracker.dispose MarkdownFileTracker.registeredFields).1 :=
  ⟨rfl, rfl, rfl, rfl⟩

namespace MarkdownFileTracker

/-- The externally observable steps of construction and
`registerListeners`, in source order. -/
inductive InitAction
  | configureModeInit
  | registerFileChangeListener
  | registerConfigChangeListener
  | registerEditorsChangedListener
  | readConfigurationInit
  | registerThemeChangeListener
deriving DecidableEq, Repr

/-- `registerListeners` (lines 66-81 of the source) as the ordered list
of its observable steps: register the file-change, configuration-change
and editor-set listeners, read the initial configuration, register the
theme-change listener. -/
def registerListenersTrace : List InitAction :=
  [InitAction.registerFileChangeListener,
   InitAction.registerConfigChangeListener,
   InitAction.registerEditorsChangedListener,
   InitAction.readConfigurationInit,
   InitAction.registerThemeChangeListener]

/-- The constructor (lines 47-64 of the source): apply the current theme
via `configureMode`, then run `registerListeners`. -/
def constructorTrace : List InitAction :=
  InitAction.configureModeInit :: registerListenersTrace

/-- The ordering the specification asserts: the configuration is read
strictly before each of the four listener registrations. -/
def specClaimedInitOrder (tr : List InitAction) : Prop :=
  tr.indexOf InitAction.readConfigurationInit
      < tr.indexOf InitAction.registerFileChangeListener
  ∧ tr.indexOf InitAction.readConfigurationInit
      < tr.indexOf InitAction.registerConfigChangeListener
  ∧ tr.indexOf InitAction.readConfigurationInit
      < tr.indexOf InitAction.registerEditorsChangedListener
  ∧ tr.indexOf InitAction.readConfigurationInit
      < tr.indexOf InitAction.registerThemeChangeListener

end MarkdownFileTracker

/-- Claim C4 (counterexample): the constructor registers the
file-change, configuration-change and editor-set listeners before the
configuration is read, so the spec's claimed ordering — configuration
read before all four registrations — fails on the actual trace. -/
theorem constructorTrace_order_counterexample :
    ¬ MarkdownFileTracker.specClaimedInitOrder MarkdownFileTracker.constructorTrace := by
  intro h
  exact absurd h.1 (by decide)

/-- Claim C4 (amended): on construction the tracker first applies the
current theme, then registers the file-change, configuration-change and
editor-set listeners, then reads the current style configuration into
its snapshot, and registers the theme-change listener last; since event
dispatch is single-threaded, no event is delivered before construction
completes, so the baseline theme and configuration state are captured
before any event is processed. -/
theorem constructorTrace_order :
    MarkdownFileTracker.constructorTrace
      = [MarkdownFileTracker.InitAction.configureModeInit,
         MarkdownFileTracker.InitAction.registerFileChangeListener,
         MarkdownFileTracker.InitAction.registerConfigChangeListener,
         MarkdownFileTracker.InitAction.registerEditorsChangedListener,
         MarkdownFileTracker.InitAction.readConfigurationInit,
         MarkdownFileTracker.InitAction.registerThemeChangeListener] := rfl
